import Mathlib

/-!
Verification of the site01 trading-bot core against its specification.

The JavaScript source is embedded shallowly:
* JS numbers are modelled as `ℚ` (all claim-relevant computations are exact
  rational arithmetic; display-only rounding such as `toFixed` is omitted);
* calendar dates (`new Date().toDateString()`) are modelled as `ℕ` day
  indices, passed explicitly where the JS reads the clock;
* stateful methods become pure functions from an explicit state (and an
  environment describing the results of external venue-adapter calls) to a
  new state;
* a JS function that may `throw` is embedded with `Except Unit`; a function
  that may return `null` with `Option`.
-/

namespace Site01

/-- `src/services/alpacaService.js` (RiskManager section), `this.config`:
the risk configuration captured in the constructor with its defaults. -/
structure RiskConfig where
  capitalInicial : ℚ
  lucroMaximoDiario : ℚ
  perdaMaximaDiaria : ℚ
  agressividade : ℚ
  maxPosicoes : ℕ
  maxPosicoesStocks : ℕ
  maxPosicoesCrypto : ℕ
  stopLossPercent : ℚ
  takeProfitPercent : ℚ
deriving DecidableEq, Repr

/-- The constructor defaults (`|| 5000`, `|| 500`, ...). -/
def RiskConfig.default : RiskConfig :=
  { capitalInicial := 5000
    lucroMaximoDiario := 500
    perdaMaximaDiaria := 200
    agressividade := 70
    maxPosicoes := 5
    maxPosicoesStocks := 3
    maxPosicoesCrypto := 3
    stopLossPercent := 2
    takeProfitPercent := 4 }

/-- `this.dailyStats` of the RiskManager: per-day session accounting.
`startDate` models `new Date().toDateString()` as a day index. -/
structure DailyStats where
  startBalance : ℚ
  currentPnL : ℚ
  tradesCount : ℕ
  startDate : ℕ
deriving DecidableEq, Repr

/-- The RiskManager state: immutable config plus the mutable daily session. -/
structure RiskManager where
  config : RiskConfig
  dailyStats : DailyStats
deriving DecidableEq, Repr

/-- `RiskManager` constructor: `dailyStats = {startBalance: 0, currentPnL: 0,
tradesCount: 0, startDate: new Date().toDateString()}`; the construction day
is passed explicitly. -/
def RiskManager.init (config : RiskConfig) (today : ℕ) : RiskManager :=
  { config := config
    dailyStats :=
      { startBalance := 0, currentPnL := 0, tradesCount := 0, startDate := today } }

/-- `resetDailyStats(startBalance)`: replaces `dailyStats` only when the
stored `startDate` differs from today; otherwise the whole body is skipped. -/
def RiskManager.resetDailyStats (rm : RiskManager) (today : ℕ) (startBalance : ℚ) :
    RiskManager :=
  if rm.dailyStats.startDate ≠ today then
    { rm with dailyStats :=
        { startBalance := startBalance, currentPnL := 0, tradesCount := 0,
          startDate := today } }
  else rm

/-- `updateDailyPnL(currentBalance)`: `currentPnL = currentBalance - startBalance`. -/
def RiskManager.updateDailyPnL (rm : RiskManager) (currentBalance : ℚ) : RiskManager :=
  { rm with dailyStats :=
      { rm.dailyStats with currentPnL := currentBalance - rm.dailyStats.startBalance } }

/-- `hasHitDailyProfitLimit()`: `currentPnL >= lucroMaximoDiario`. -/
def RiskManager.hasHitDailyProfitLimit (rm : RiskManager) : Bool :=
  rm.config.lucroMaximoDiario ≤ rm.dailyStats.currentPnL

/-- `hasHitDailyLossLimit()`: `currentPnL <= -perdaMaximaDiaria`. -/
def RiskManager.hasHitDailyLossLimit (rm : RiskManager) : Bool :=
  rm.dailyStats.currentPnL ≤ -rm.config.perdaMaximaDiaria

/-- `shouldStopTrading()`: either daily limit hit. -/
def RiskManager.shouldStopTrading (rm : RiskManager) : Bool :=
  rm.hasHitDailyProfitLimit || rm.hasHitDailyLossLimit

/-- `checkCircuitBreaker(currentBalance)`:
`lossPercent = ((currentBalance - startBalance) / startBalance) * 100`,
triggered when `lossPercent <= -5`; the `-5` is a literal in the source,
taken from no configuration field. -/
def RiskManager.checkCircuitBreaker (rm : RiskManager) (currentBalance : ℚ) : Bool :=
  ((currentBalance - rm.dailyStats.startBalance) / rm.dailyStats.startBalance) * 100 ≤ -5

/-- `calculatePositionSize(accountBalance, price)` (stocks): 2% base risk
scaled by aggressiveness, quantity = floor of value/price, minimum 1. -/
def RiskManager.calculatePositionSize (rm : RiskManager)
    (accountBalance price : ℚ) : ℤ :=
  let baseRiskPercent : ℚ := 2
  let adjustedRiskPercent := baseRiskPercent * (rm.config.agressividade / 100)
  let positionValue := accountBalance * (adjustedRiskPercent / 100)
  let quantity := ⌊positionValue / price⌋
  if 0 < quantity then quantity else 1

/-- `calculateCryptoPositionSize(accountBalance, price)` (crypto): same value
computation, fractional quantity, minimum 0.001. -/
def RiskManager.calculateCryptoPositionSize (rm : RiskManager)
    (accountBalance price : ℚ) : ℚ :=
  let baseRiskPercent : ℚ := 2
  let adjustedRiskPercent := baseRiskPercent * (rm.config.agressividade / 100)
  let positionValue := accountBalance * (adjustedRiskPercent / 100)
  let quantity := positionValue / price
  max quantity (1 / 1000)

/-- `getRiskStats()` fields relevant to the claims: `dailyPnLPercent` divides
`currentPnL` by `startBalance`. -/
structure RiskStats where
  dailyPnL : ℚ
  dailyPnLPercent : ℚ
  dailyPnLPercentDivisor : ℚ
  tradesCount : ℕ
  canTrade : Bool
deriving DecidableEq, Repr

/-- `getRiskStats()`: `dailyPnLPercent = (currentPnL / startBalance) * 100`;
the divisor of that expression is recorded alongside it in
`dailyPnLPercentDivisor` so that statements about division by zero are
expressible (rational division by zero yields 0, where JS yields NaN/±Inf). -/
def RiskManager.getRiskStats (rm : RiskManager) : RiskStats :=
  { dailyPnL := rm.dailyStats.currentPnL
    dailyPnLPercent := (rm.dailyStats.currentPnL / rm.dailyStats.startBalance) * 100
    dailyPnLPercentDivisor := rm.dailyStats.startBalance
    tradesCount := rm.dailyStats.tradesCount
    canTrade := !rm.shouldStopTrading }

/-- The two venues the scanner tags its results with (`'Alpaca'` for the
stock venue, `'Kraken'` for the crypto venue); these string literals are the
only values the `exchange` field ever takes. -/
inductive Exchange where
  | alpaca
  | kraken
deriving DecidableEq, Repr

/-- Signal classification (`'BUY' | 'SELL' | 'HOLD'`). -/
inductive SignalType where
  | buy
  | sell
  | hold
deriving DecidableEq, Repr

/-- The fields of a venue position that the core reads:
`canOpenPosition` reads `exchange`, the in-cycle duplicate check reads
`symbol`, and `shouldClosePosition` reads `profitLossPercent`. -/
structure Position where
  symbol : String
  exchange : Exchange
  profitLossPercent : ℚ
deriving DecidableEq, Repr

/-- `canOpenPosition(currentPositions, exchange)`: false when the total
count reaches `maxPosicoes`, or the per-venue count reaches that venue's
maximum. -/
def RiskManager.canOpenPosition (rm : RiskManager)
    (currentPositions : List Position) (exchange : Exchange) : Bool :=
  let totalPositions := currentPositions.length
  let stockPositions := (currentPositions.filter (·.exchange = Exchange.alpaca)).length
  let cryptoPositions := (currentPositions.filter (·.exchange = Exchange.kraken)).length
  if rm.config.maxPosicoes ≤ totalPositions then false
  else if exchange = Exchange.alpaca ∧ rm.config.maxPosicoesStocks ≤ stockPositions then
    false
  else if exchange = Exchange.kraken ∧ rm.config.maxPosicoesCrypto ≤ cryptoPositions then
    false
  else true

/-- `shouldClosePosition(position)`: stop-loss or take-profit hit. -/
def RiskManager.shouldClosePosition (rm : RiskManager) (position : Position) : Bool :=
  position.profitLossPercent ≤ -rm.config.stopLossPercent ∨
    rm.config.takeProfitPercent ≤ position.profitLossPercent

/-! ### Signal engine (`strategies/RSIStrategy.js`)

The RSI number itself is produced by the external `technicalindicators`
package (`RSI.calculate`), which is not part of this repository's sources;
it is modelled from the specification's §4.1 algorithm below
(`calculateRSI`). The classification logic (`generateSignal`, `analyze`)
is embedded directly from `RSIStrategy.js`. -/

/-- RSI strategy configuration (period / oversold / overbought thresholds,
defaults 14 / 30 / 70). -/
structure RSIStrategy where
  period : ℕ
  oversold : ℚ
  overbought : ℚ
deriving DecidableEq, Repr

/-- Strategy constructor defaults. -/
def RSIStrategy.default : RSIStrategy :=
  { period := 14, oversold := 30, overbought := 70 }

/-- One Wilder smoothing step folded over the post-seed values:
`avg = (avg*(period-1) + newValue)/period`. -/
def wilderSmooth (period : ℕ) (seed : ℚ) (values : List ℚ) : ℚ :=
  values.foldl (fun avg v => (avg * ((period : ℚ) - 1) + v) / (period : ℚ)) seed

/-- Modelled from the spec: the indicator computation performed by the
external `technicalindicators` package's `RSI.calculate` (absent from the
sources), per §4.1: fail with none when fewer than `period + 1` prices;
otherwise seed average gain/loss as the simple mean of the first `period`
signed deltas (gains and losses separated), Wilder-smooth the remaining
deltas, and return `100 - 100/(1 + avgGain/avgLoss)`, with the value defined
as 100 when `avgLoss = 0`. -/
def calculateRSI (period : ℕ) (closePrices : List ℚ) : Option ℚ :=
  if closePrices.length < period + 1 then none
  else
    let deltas := (closePrices.zip closePrices.tail).map (fun p => p.2 - p.1)
    let gains := deltas.map (fun d => max d 0)
    let losses := deltas.map (fun d => max (-d) 0)
    let avgGain := wilderSmooth period ((gains.take period).sum / (period : ℚ)) (gains.drop period)
    let avgLoss := wilderSmooth period ((losses.take period).sum / (period : ℚ)) (losses.drop period)
    if avgLoss = 0 then some 100
    else some (100 - 100 / (1 + avgGain / avgLoss))

/-- `RSIStrategy.calculateRSI(historicalData)`: length guard from the
source (`historicalData.length < this.period + 1` yields null), then the
library computation on the extracted close prices. -/
def RSIStrategy.calculateRSI (strat : RSIStrategy) (closePrices : List ℚ) : Option ℚ :=
  if closePrices.length < strat.period + 1 then none
  else Site01.calculateRSI strat.period closePrices

/-- Output of `generateSignal`: `{type, strength, rsi}`. The `rsi` echo
field is `rsi.toFixed(2)` in the source (a display string); the 2-decimal
rounding is omitted and the raw value kept. -/
structure SignalOut where
  type : SignalType
  strength : ℚ
  rsi : Option ℚ
deriving DecidableEq, Repr

/-- `generateSignal(rsi)` on a non-null RSI value: BUY below `oversold`
with strength `min(((oversold - rsi)/oversold)*100, 100)`, SELL above
`overbought` with strength `min(((rsi - overbought)/(100 - overbought))*100, 100)`,
otherwise HOLD with strength 0. The source caps the strength with
`Math.min(strength, 100)` only; there is no lower cap. -/
def RSIStrategy.generateSignalVal (strat : RSIStrategy) (rsi : ℚ) : SignalOut :=
  if rsi < strat.oversold then
    { type := SignalType.buy
      strength := min (((strat.oversold - rsi) / strat.oversold) * 100) 100
      rsi := some rsi }
  else if strat.overbought < rsi then
    { type := SignalType.sell
      strength := min (((rsi - strat.overbought) / (100 - strat.overbought)) * 100) 100
      rsi := some rsi }
  else
    { type := SignalType.hold, strength := 0, rsi := some rsi }

/-- `generateSignal(rsi)` including the null guard
(`rsi === null || rsi === undefined` yields HOLD with strength 0 and a null
rsi echo). -/
def RSIStrategy.generateSignal (strat : RSIStrategy) (rsi : Option ℚ) : SignalOut :=
  match rsi with
  | none => { type := SignalType.hold, strength := 0, rsi := none }
  | some v => strat.generateSignalVal v

/-- `analyze(historicalData)`: RSI computation followed by classification. -/
def RSIStrategy.analyze (strat : RSIStrategy) (closePrices : List ℚ) : SignalOut :=
  strat.generateSignal (strat.calculateRSI closePrices)

/-! ### Scanner (`src/bot/Scanner.js`)

Venue-adapter calls are externalized into a `ScanEnv` of result-valued
functions: a call that can throw is `Except Unit`-valued, a call that can
return null is `Option`-valued. Historical data is modelled by its list of
close prices (the only field `analyze` reads); timestamps are omitted. -/

/-- One entry of the crypto universe (`{symbol, fallback}`). -/
structure CryptoConfig where
  symbol : String
  fallback : Option String
deriving DecidableEq, Repr

/-- The scanner's signal record (timestamp and the redundant
`type: stock/crypto` tag omitted; the latter is determined by `exchange`). -/
structure Signal where
  symbol : String
  exchange : Exchange
  currentPrice : ℚ
  rsi : Option ℚ
  signal : SignalType
  strength : ℚ
deriving DecidableEq, Repr

/-- Results of the venue-adapter calls a scan performs, per symbol. -/
structure ScanEnv where
  alpacaHist : String → Except Unit (List ℚ)
  alpacaPrice : String → Except Unit (Option ℚ)
  krakenAvailableSymbol : String → Option String → Except Unit (Option String)
  krakenHist : String → Except Unit (List ℚ)
  krakenPrice : String → Except Unit (Option ℚ)

/-- `scanStock(symbol)`: fetch history (< 20 points yields null), fetch the
spot price (`!currentPrice` — null or 0 — yields null), analyze; any thrown
error is caught in the method's own try/catch and yields null. -/
def scanStock (env : ScanEnv) (strat : RSIStrategy) (symbol : String) : Option Signal :=
  match env.alpacaHist symbol with
  | .error _ => none
  | .ok historicalData =>
    if historicalData.length < 20 then none
    else
      match env.alpacaPrice symbol with
      | .error _ => none
      | .ok none => none
      | .ok (some currentPrice) =>
        if currentPrice = 0 then none
        else
          let analysis := strat.analyze historicalData
          some { symbol := symbol, exchange := Exchange.alpaca,
                 currentPrice := currentPrice, rsi := analysis.rsi,
                 signal := analysis.type, strength := analysis.strength }

/-- `scanCrypto(cryptoConfig)`: resolve the available symbol (null yields
null), then the same history / price / analyze pipeline with the Kraken
adapter; any thrown error is caught and yields null. -/
def scanCrypto (env : ScanEnv) (strat : RSIStrategy) (cfg : CryptoConfig) : Option Signal :=
  match env.krakenAvailableSymbol cfg.symbol cfg.fallback with
  | .error _ => none
  | .ok none => none
  | .ok (some symbol) =>
    match env.krakenHist symbol with
    | .error _ => none
    | .ok historicalData =>
      if historicalData.length < 20 then none
      else
        match env.krakenPrice symbol with
        | .error _ => none
        | .ok none => none
        | .ok (some currentPrice) =>
          if currentPrice = 0 then none
          else
            let analysis := strat.analyze historicalData
            some { symbol := symbol, exchange := Exchange.kraken,
                   currentPrice := currentPrice, rsi := analysis.rsi,
                   signal := analysis.type, strength := analysis.strength }

/-- `scanStocks(stockSymbols)`: `Promise.allSettled` over per-symbol scans,
keeping fulfilled non-null values. `scanStock` catches all of its errors, so
every settled result is fulfilled and the filter keeps exactly the non-null
signals. -/
def scanStocks (env : ScanEnv) (strat : RSIStrategy) (stockSymbols : List String) :
    List Signal :=
  (stockSymbols.map (scanStock env strat)).filterMap id

/-- `scanCryptos(cryptoConfigs)`: same collect-all-settled shape for the
crypto universe. -/
def scanCryptos (env : ScanEnv) (strat : RSIStrategy) (cryptoConfigs : List CryptoConfig) :
    List Signal :=
  (cryptoConfigs.map (scanCrypto env strat)).filterMap id

/-- Descending sort by strength (`(a, b) => b.strength - a.strength`);
JS array sort is stable, as is `mergeSort`. -/
def sortByStrengthDesc (signals : List Signal) : List Signal :=
  signals.mergeSort (fun a b => b.strength ≤ a.strength)

/-- `scanAll`'s return value (`duration` omitted: wall-clock only). -/
structure ScanResults where
  all : List Signal
  buy : List Signal
  sell : List Signal
  totalCount : ℕ
  buyCount : ℕ
  sellCount : ℕ
deriving DecidableEq, Repr

/-- `scanAll(stockSymbols, cryptoConfigs)`: join both venue scans, partition
into buy/sell, sort each descending by strength, report counts. -/
def scanAll (env : ScanEnv) (strat : RSIStrategy) (stockSymbols : List String)
    (cryptoConfigs : List CryptoConfig) : ScanResults :=
  let stockSignals := scanStocks env strat stockSymbols
  let cryptoSignals := scanCryptos env strat cryptoConfigs
  let allSignals := stockSignals ++ cryptoSignals
  let buySignals := allSignals.filter (·.signal = SignalType.buy)
  let sellSignals := allSignals.filter (·.signal = SignalType.sell)
  { all := allSignals
    buy := sortByStrengthDesc buySignals
    sell := sortByStrengthDesc sellSignals
    totalCount := allSignals.length
    buyCount := buySignals.length
    sellCount := sellSignals.length }

/-- `findBestOpportunities(signals, minStrength, limit)`: keep signals at or
above the strength floor that are not HOLD, sort descending, truncate. -/
def findBestOpportunities (signals : List Signal) (minStrength : ℚ) (limit : ℕ) :
    List Signal :=
  ((signals.filter (fun s => minStrength ≤ s.strength ∧ s.signal ≠ SignalType.hold)).mergeSort
      (fun a b => b.strength ≤ a.strength)).take limit

/-! ### Orchestrator (`src/bot/TradingBot.js`)

The bot's mutable fields become `BotState`; the venue-adapter calls a cycle
performs become a `CycleEnv`. One scheduled tick is one application of
`runScanCycle`. -/

/-- `this.status`: `'stopped' | 'running' | 'paused'`. -/
inductive BotStatus where
  | stopped
  | running
  | paused
deriving DecidableEq, Repr

/-- `this.stats` (the wall-clock `lastScanTime` is omitted). -/
structure BotStats where
  tradesExecuted : ℕ
  errors : ℕ
  lastSignals : List Signal
deriving DecidableEq, Repr

/-- The order actually submitted by a venue `buy` call. -/
structure Order where
  symbol : String
  quantity : ℚ
deriving DecidableEq, Repr

/-- Results of the venue-adapter calls `executeTrades` performs.
`marketOpen` is re-queried per candidate in the source; a single value per
cycle assumes the answer does not flip mid-cycle. Balance fetches are given
as values; a thrown venue error during execution is modelled at the order
call via `buyThrows` (any throw inside the per-candidate try block lands in
the same catch). -/
structure ExecEnv where
  marketOpen : Bool
  alpacaCash : ℚ
  krakenTotal : ℚ
  minOrderSize : String → ℚ
  buyThrows : String → Bool

/-- `executeBuyStock(signal)`: size the position from the stock venue's cash
balance; below 1 unit return without submitting (`none`); otherwise submit
the buy (which may throw). `calculatePositionSize` clamps to a minimum of 1,
so the below-1 branch is in fact unreachable. -/
def executeBuyStock (env : ExecEnv) (rm : RiskManager) (signal : Signal) :
    Except Unit (Option Order) :=
  let quantity := rm.calculatePositionSize env.alpacaCash signal.currentPrice
  if quantity < 1 then Except.ok none
  else if env.buyThrows signal.symbol then Except.error ()
  else Except.ok (some { symbol := signal.symbol, quantity := (quantity : ℚ) })

/-- `executeBuyCrypto(signal)`: size the position from the crypto venue's
total balance; below the venue's minimum order size return without
submitting (`none`); otherwise submit the buy (which may throw). -/
def executeBuyCrypto (env : ExecEnv) (rm : RiskManager) (signal : Signal) :
    Except Unit (Option Order) :=
  let quantity := rm.calculateCryptoPositionSize env.krakenTotal signal.currentPrice
  let minOrder := env.minOrderSize signal.symbol
  if quantity < minOrder then Except.ok none
  else if env.buyThrows signal.symbol then Except.error ()
  else Except.ok (some { symbol := signal.symbol, quantity := quantity })

/-- The in-cycle loop state of `executeTrades`: the (mutated) position list,
the number of `this.stats.tradesExecuted++` increments performed, and the
orders actually submitted to a venue. -/
structure ExecOutcome where
  positions : List Position
  newTrades : ℕ
  orders : List Order
deriving DecidableEq, Repr

/-- One iteration of the candidate loop in `executeTrades`: skip when the
position limit is reached, when a position in the symbol already exists, or
(stocks) when the market is closed; otherwise run the venue buy helper.
When that helper throws, the catch logs and records nothing; when it
returns (with or without having submitted an order) the source increments
`tradesExecuted` and pushes `{symbol, exchange}` onto the position list.
The pushed JS record carries only those two fields; `profitLossPercent` is
set to 0 here, and no code reads it from a pushed entry. -/
def executeTradesStep (env : ExecEnv) (rm : RiskManager) (acc : ExecOutcome)
    (opp : Signal) : ExecOutcome :=
  if ¬ rm.canOpenPosition acc.positions opp.exchange then acc
  else if acc.positions.any (fun p => p.symbol = opp.symbol) then acc
  else
    match opp.exchange with
    | Exchange.alpaca =>
      if ¬ env.marketOpen then acc
      else
        match executeBuyStock env rm opp with
        | Except.error _ => acc
        | Except.ok ord =>
          { positions := acc.positions ++
              [{ symbol := opp.symbol, exchange := opp.exchange, profitLossPercent := 0 }]
            newTrades := acc.newTrades + 1
            orders := acc.orders ++ ord.toList }
    | Exchange.kraken =>
        match executeBuyCrypto env rm opp with
        | Except.error _ => acc
        | Except.ok ord =>
          { positions := acc.positions ++
              [{ symbol := opp.symbol, exchange := opp.exchange, profitLossPercent := 0 }]
            newTrades := acc.newTrades + 1
            orders := acc.orders ++ ord.toList }

/-- `executeTrades(opportunities, currentPositions, balance)`: iterate the
candidate loop over the top 3 opportunities (`slice(0, 3)`). -/
def executeTrades (env : ExecEnv) (rm : RiskManager) (opportunities : List Signal)
    (currentPositions : List Position) : ExecOutcome :=
  (opportunities.take 3).foldl (executeTradesStep env rm)
    { positions := currentPositions, newTrades := 0, orders := [] }

/-- The bot's mutable fields (plus the fixed strategy and the universe
stored by `start()`). `scanIntervalActive` models whether `this.scanInterval`
holds a live timer. -/
structure BotState where
  status : BotStatus
  strategy : RSIStrategy
  riskManager : RiskManager
  stats : BotStats
  stockSymbols : List String
  cryptoConfigs : List CryptoConfig
  scanIntervalActive : Bool
deriving Repr

/-- `stop()`: set status to stopped and clear the periodic schedule (the
method also returns true, unconditionally). -/
def TradingBot.stop (s : BotState) : BotState :=
  { s with status := BotStatus.stopped, scanIntervalActive := false }

/-- The results of the external calls one `runScanCycle` tick performs.
`fetchOk = false` models `getTotalBalance()`/`getAllPositions()` throwing
(the venue `getBalance` helpers rethrow), which lands in the cycle-level
catch. -/
structure CycleEnv where
  fetchOk : Bool
  balance : ℚ
  positions : List Position
  scanEnv : ScanEnv
  exec : ExecEnv

/-- `runScanCycle()`: guard on `status !== 'running'`; fetch balance and
positions (a throw increments `stats.errors` and ends the cycle); update
daily P&L; stop on daily limits; stop (after liquidating externally) on the
circuit breaker; check exits on open positions (external closes only, each
failure caught); scan; record `lastSignals`; pick opportunities (minimum
strength 50, top 5); execute trades when any were found. -/
def runScanCycle (env : CycleEnv) (s : BotState) : BotState :=
  if s.status ≠ BotStatus.running then s
  else if ¬ env.fetchOk then
    { s with stats := { s.stats with errors := s.stats.errors + 1 } }
  else
    let rm := s.riskManager.updateDailyPnL env.balance
    if rm.shouldStopTrading then TradingBot.stop { s with riskManager := rm }
    else if rm.checkCircuitBreaker env.balance then
      TradingBot.stop { s with riskManager := rm }
    else
      let scanResults := scanAll env.scanEnv s.strategy s.stockSymbols s.cryptoConfigs
      let stats1 := { s.stats with lastSignals := scanResults.all }
      let opportunities := findBestOpportunities scanResults.buy 50 5
      if opportunities ≠ [] then
        let outcome := executeTrades env.exec rm opportunities env.positions
        { s with riskManager := rm,
                 stats := { stats1 with
                   tradesExecuted := stats1.tradesExecuted + outcome.newTrades } }
      else { s with riskManager := rm, stats := stats1 }

/-- The external calls `start()` performs: the two connectivity tests, the
balance for `resetDailyStats`, today's date, and the environment of the
first, immediately-run cycle. A `getTotalBalance` failure inside `start()`
would reject the promise before any state change; that path is not
modelled. -/
structure StartEnv where
  alpacaOk : Bool
  krakenOk : Bool
  balance : ℚ
  today : ℕ
  firstCycle : CycleEnv

/-- `start(stockSymbols, cryptoConfigs)`: refuse (false) when already
running; test both venue connections and refuse (false, state untouched)
when either fails; otherwise reset the daily session, set status running,
store the universe, run one cycle immediately, then install the periodic
schedule and return true. The schedule is installed even when that first
cycle has already stopped the bot. -/
def TradingBot.start (env : StartEnv) (stockSymbols : List String)
    (cryptoConfigs : List CryptoConfig) (s : BotState) : BotState × Bool :=
  if s.status = BotStatus.running then (s, false)
  else if ¬ (env.alpacaOk ∧ env.krakenOk) then (s, false)
  else
    let rm := s.riskManager.resetDailyStats env.today env.balance
    let s1 : BotState :=
      { s with
        status := BotStatus.running
        riskManager := rm
        stockSymbols := stockSymbols
        cryptoConfigs := cryptoConfigs }
    let s2 := runScanCycle env.firstCycle s1
    ({ s2 with scanIntervalActive := true }, true)

/-! ### Shared concrete sample states and helper lemmas -/

/-- A RiskManager with the default config and a session started at the given
balance (day index 0, no P&L yet). -/
def rmAt (startBalance : ℚ) : RiskManager :=
  { config := RiskConfig.default
    dailyStats :=
      { startBalance := startBalance, currentPnL := 0, tradesCount := 0, startDate := 0 } }

/-- `clamp(x, 0, 100)` as the specification writes it. -/
def clampQ (x : ℚ) : ℚ := max 0 (min x 100)

/-- A strategy whose configured oversold threshold is negative (the config
fields pass through `parseInt` unchecked). -/
def stratNegOversold : RSIStrategy := { period := 14, oversold := -30, overbought := 70 }

/-- A scan environment in which the history fetch for symbol `X` throws and
every other adapter call succeeds with a constant 20-point series. -/
def scanEnvEx : ScanEnv :=
  { alpacaHist := fun s =>
      if s = "X" then Except.error () else Except.ok (List.replicate 20 100)
    alpacaPrice := fun _ => Except.ok (some 10)
    krakenAvailableSymbol := fun s _ => Except.ok (some s)
    krakenHist := fun _ => Except.ok (List.replicate 20 100)
    krakenPrice := fun _ => Except.ok (some 10) }

/-- An execution environment whose crypto venue demands a 0.01 minimum order
while the account is small enough that the computed size is the 0.001 floor;
no venue call throws. -/
def execEnvBelowMin : ExecEnv :=
  { marketOpen := true
    alpacaCash := 1000
    krakenTotal := 1
    minOrderSize := fun _ => 1 / 100
    buyThrows := fun _ => false }

/-- A crypto BUY candidate priced such that the computed position size stays
at the 0.001 minimum, below `execEnvBelowMin`'s 0.01 minimum order size. -/
def oppBelowMin : Signal :=
  { symbol := "Z", exchange := Exchange.kraken, currentPrice := 10000,
    rsi := some 20, signal := SignalType.buy, strength := 60 }

/-- A cycle environment with healthy fetches, a balance of 4000 (a 1000
loss against a 5000 session start) and no positions. -/
def cycleEnvEx : CycleEnv :=
  { fetchOk := true, balance := 4000, positions := [],
    scanEnv := scanEnvEx, exec := execEnvBelowMin }

/-- A stopped bot with the default strategy and a 5000 session. -/
def stoppedBot : BotState :=
  { status := BotStatus.stopped, strategy := RSIStrategy.default,
    riskManager := rmAt 5000,
    stats := { tradesExecuted := 0, errors := 0, lastSignals := [] },
    stockSymbols := [], cryptoConfigs := [], scanIntervalActive := false }

/-- The same bot, paused. -/
def pausedBot : BotState := { stoppedBot with status := BotStatus.paused }

/-- The same bot, running (its 5000 session against `cycleEnvEx`'s balance
of 4000 puts it past the daily loss limit). -/
def runningLossBot : BotState := { stoppedBot with status := BotStatus.running }

/-- A start environment whose stock-venue connectivity check fails. -/
def startEnvFail : StartEnv :=
  { alpacaOk := false, krakenOk := true, balance := 5000, today := 0,
    firstCycle := cycleEnvEx }

lemma wilderSmooth_replicate_zero (period k : ℕ) :
    wilderSmooth period 0 (List.replicate k 0) = 0 := by
  induction k with
  | zero => rfl
  | succ n ih => simpa [wilderSmooth, List.replicate_succ] using ih

/-- A constant price series past warm-up has zero deltas on both sides, so
the smoothed average loss is 0 and the modelled indicator takes its
`avgLoss = 0` value, 100. -/
lemma calculateRSI_replicate (period n : ℕ) (c : ℚ) (h : period + 1 ≤ n) :
    calculateRSI period (List.replicate n c) = some 100 := by
  unfold calculateRSI
  rw [if_neg (by simp; omega)]
  simp [List.tail_replicate, List.zip_replicate, sub_self, wilderSmooth_replicate_zero]

/-! ### Claims about the Risk Manager -/

/-- C6: `checkCircuitBreaker(balance)` computes
`lossPercent = (balance - startBalance)/startBalance * 100` and fires exactly
when `lossPercent ≤ -5`; the `-5` threshold is a literal unaffected by the
configuration; with a session started at 5000 it fires at balance 4740 and
not at 4760. -/
theorem checkCircuitBreaker_threshold :
    (∀ (rm : RiskManager) (balance : ℚ), 0 < rm.dailyStats.startBalance →
      (rm.checkCircuitBreaker balance = true ↔
        ((balance - rm.dailyStats.startBalance) / rm.dailyStats.startBalance) * 100 ≤ -5)) ∧
    (∀ (rm : RiskManager) (cfg : RiskConfig) (balance : ℚ),
      RiskManager.checkCircuitBreaker { rm with config := cfg } balance
        = rm.checkCircuitBreaker balance) ∧
    (rmAt 5000).checkCircuitBreaker 4740 = true ∧
    (rmAt 5000).checkCircuitBreaker 4760 = false := by
  refine ⟨?_, ?_, ?_, ?_⟩
  · intro rm balance _
    simp [RiskManager.checkCircuitBreaker]
  · intro rm cfg balance
    rfl
  · norm_num [RiskManager.checkCircuitBreaker, rmAt]
  · norm_num [RiskManager.checkCircuitBreaker, rmAt]

/-- C6 witness: the general equivalence applied to the session started at
5000 with current balance 4740. -/
theorem checkCircuitBreaker_threshold_witness :
    (rmAt 5000).checkCircuitBreaker 4740 = true ↔
      ((4740 - (5000 : ℚ)) / 5000) * 100 ≤ -5 := by
  have h := checkCircuitBreaker_threshold.1 (rmAt 5000) 4740 (by norm_num [rmAt])
  simpa [rmAt] using h

/-- C7: position sizing uses `riskFraction = 0.02 * (aggressiveness/100)` and
`positionValue = balance * riskFraction`; stock quantity is
`floor(positionValue/price)` with minimum 1, crypto quantity is
`positionValue/price` with minimum 0.001; at balance 5000, price 100,
aggressiveness 70 the raw stock quantity 0 is clamped to 1. -/
theorem positionSize_policy :
    (∀ (rm : RiskManager) (balance price : ℚ), 0 < price →
        50 ≤ rm.config.agressividade → rm.config.agressividade ≤ 100 →
      rm.calculatePositionSize balance price
          = max ⌊(balance * ((2 / 100) * (rm.config.agressividade / 100))) / price⌋ 1 ∧
      rm.calculateCryptoPositionSize balance price
          = max ((balance * ((2 / 100) * (rm.config.agressividade / 100))) / price)
              (1 / 1000)) ∧
    (rmAt 0).calculatePositionSize 5000 100 = 1 := by
  constructor
  · intro rm balance price _ _ _
    have hform : balance * (2 * (rm.config.agressividade / 100) / 100) / price
        = balance * ((2 / 100) * (rm.config.agressividade / 100)) / price := by
      ring_nf
    constructor
    · simp only [RiskManager.calculatePositionSize]
      rw [hform]
      rcases lt_or_le 0 ⌊balance * ((2 / 100) * (rm.config.agressividade / 100)) / price⌋
        with h | h
      · rw [if_pos h, max_eq_left (by omega)]
      · rw [if_neg (by omega), max_eq_right (by omega)]
    · simp only [RiskManager.calculateCryptoPositionSize]
      rw [hform, max_comm]
  · norm_num [RiskManager.calculatePositionSize, rmAt, RiskConfig.default]

/-- C7 witness: the sizing equations at balance 5000, price 100,
aggressiveness 70 (the default config). -/
theorem positionSize_policy_witness :
    (rmAt 0).calculatePositionSize 5000 100
        = max ⌊((5000 : ℚ) * ((2 / 100) * (70 / 100))) / 100⌋ 1 ∧
    (rmAt 0).calculateCryptoPositionSize 5000 100
        = max (((5000 : ℚ) * ((2 / 100) * (70 / 100))) / 100) (1 / 1000) := by
  have h := positionSize_policy.1 (rmAt 0) 5000 100 (by norm_num)
    (by norm_num [rmAt, RiskConfig.default]) (by norm_num [rmAt, RiskConfig.default])
  simpa [rmAt, RiskConfig.default] using h

/-- C8: `resetDailyStats` is a no-op when the stored session date equals
today, replaces the whole session when it differs, and a second same-day
call (with any other balance) leaves the state exactly as after the first. -/
theorem resetDailyStats_idempotent_within_day :
    (∀ (rm : RiskManager) (today : ℕ) (balance : ℚ),
        rm.dailyStats.startDate = today → rm.resetDailyStats today balance = rm) ∧
    (∀ (rm : RiskManager) (today : ℕ) (balance : ℚ),
        rm.dailyStats.startDate ≠ today →
          rm.resetDailyStats today balance
            = { rm with dailyStats :=
                { startBalance := balance, currentPnL := 0, tradesCount := 0,
                  startDate := today } }) ∧
    (∀ (rm : RiskManager) (today : ℕ) (b₁ b₂ : ℚ),
        (rm.resetDailyStats today b₁).resetDailyStats today b₂
          = rm.resetDailyStats today b₁) := by
  refine ⟨?_, ?_, ?_⟩
  · intro rm today balance h
    simp [RiskManager.resetDailyStats, h]
  · intro rm today balance h
    simp [RiskManager.resetDailyStats, h]
  · intro rm today b₁ b₂
    by_cases h : rm.dailyStats.startDate = today
    · simp [RiskManager.resetDailyStats, h]
    · simp [RiskManager.resetDailyStats, h]

/-- C8 witness: a same-day reset of a live session is a no-op, and a second
same-day reset with a different balance changes nothing more. -/
theorem resetDailyStats_idempotent_within_day_witness :
    (rmAt 5000).resetDailyStats 0 777 = rmAt 5000 ∧
    ((rmAt 5000).resetDailyStats 0 777).resetDailyStats 0 888
      = (rmAt 5000).resetDailyStats 0 777 :=
  ⟨resetDailyStats_idempotent_within_day.1 (rmAt 5000) 0 777 rfl,
   resetDailyStats_idempotent_within_day.2.2 (rmAt 5000) 0 777 888⟩

/-- C10: the constructor dates the session on the construction day with
`startBalance = 0`; every same-day `resetDailyStats` call (any number, any
balances) is a no-op, so `startBalance` stays 0, `updateDailyPnL` never
touches it, and that zero is precisely the divisor of `getRiskStats`'
`dailyPnLPercent` and of `checkCircuitBreaker`'s loss percentage (rational
division by zero is total here; the JS source produces NaN/±Infinity). -/
theorem init_day_session_zero_start_balance :
    (∀ (cfg : RiskConfig) (day : ℕ),
        (RiskManager.init cfg day).dailyStats.startBalance = 0) ∧
    (∀ (cfg : RiskConfig) (day : ℕ) (balances : List ℚ),
        balances.foldl (fun rm b => rm.resetDailyStats day b) (RiskManager.init cfg day)
          = RiskManager.init cfg day) ∧
    (∀ (rm : RiskManager) (balance : ℚ),
        (rm.updateDailyPnL balance).dailyStats.startBalance
          = rm.dailyStats.startBalance) ∧
    (∀ (cfg : RiskConfig) (day : ℕ) (balance : ℚ),
        ((RiskManager.init cfg day).updateDailyPnL balance).getRiskStats.dailyPnLPercentDivisor
          = 0) ∧
    (∀ (cfg : RiskConfig) (day : ℕ) (balance : ℚ),
        (RiskManager.init cfg day).checkCircuitBreaker balance
          = decide (((balance - 0) / 0) * 100 ≤ -5)) := by
  refine ⟨?_, ?_, ?_, ?_, ?_⟩
  · intro cfg day
    rfl
  · intro cfg day balances
    induction balances with
    | nil => rfl
    | cons b bs ih =>
      simpa [RiskManager.resetDailyStats, RiskManager.init] using ih
  · intro rm balance
    rfl
  · intro cfg day balance
    rfl
  · intro cfg day balance
    rfl

/-! ### Claims about the signal engine -/

/-- C5 counterexample: the claim's `strength = clamp(((oversold - value)/oversold)*100, 0, 100)`
is never negative, but the source caps only from above (`Math.min(strength, 100)`):
at value -40 with oversold -30 the BUY branch produces strength -100/3 < 0. -/
theorem generateSignal_strength_below_zero :
    (stratNegOversold.generateSignalVal (-40)).type = SignalType.buy ∧
    (stratNegOversold.generateSignalVal (-40)).strength = -100 / 3 ∧
    ¬ 0 ≤ (stratNegOversold.generateSignalVal (-40)).strength := by
  have hmin : min (((-30 : ℚ) - (-40)) / (-30) * 100) 100 = -100 / 3 := by
    rw [min_eq_left (by norm_num)]
    norm_num
  norm_num [RSIStrategy.generateSignalVal, stratNegOversold, hmin]

/-- C5 (amended): with thresholds in their meaningful range
(`0 < oversold`, `overbought < 100`) and the branches taken in the source's
order (BUY tested first), the classification matches the claim, clamp
included; the three concrete instances hold as claimed. -/
theorem generateSignal_classify_rules :
    (∀ (strat : RSIStrategy) (v : ℚ), 0 < strat.oversold → strat.overbought < 100 →
      (v < strat.oversold →
        strat.generateSignalVal v
          = { type := SignalType.buy,
              strength := clampQ (((strat.oversold - v) / strat.oversold) * 100),
              rsi := some v }) ∧
      (strat.oversold ≤ v → v ≤ strat.overbought →
        strat.generateSignalVal v
          = { type := SignalType.hold, strength := 0, rsi := some v }) ∧
      (strat.oversold ≤ v → strat.overbought < v →
        strat.generateSignalVal v
          = { type := SignalType.sell,
              strength := clampQ (((v - strat.overbought) / (100 - strat.overbought)) * 100),
              rsi := some v })) ∧
    (RSIStrategy.default.generateSignalVal 20).type = SignalType.buy ∧
    (RSIStrategy.default.generateSignalVal 20).strength = 100 / 3 ∧
    (RSIStrategy.default.generateSignalVal 85).type = SignalType.sell ∧
    (RSIStrategy.default.generateSignalVal 85).strength = 50 ∧
    RSIStrategy.default.generateSignalVal 50
      = { type := SignalType.hold, strength := 0, rsi := some 50 } := by
  have hb : min (((30 : ℚ) - 20) / 30 * 100) 100 = 100 / 3 := by
    rw [min_eq_left (by norm_num)]
    norm_num
  have hs : min (((85 : ℚ) - 70) / (100 - 70) * 100) 100 = 50 := by
    rw [min_eq_left (by norm_num)]
    norm_num
  refine ⟨?_, ?_, ?_, ?_, ?_, ?_⟩
  · intro strat v hos hob
    refine ⟨?_, ?_, ?_⟩
    · intro hv
      have hx : 0 < ((strat.oversold - v) / strat.oversold) * 100 :=
        mul_pos (div_pos (sub_pos.2 hv) hos) (by norm_num)
      have hc : clampQ (((strat.oversold - v) / strat.oversold) * 100)
          = min (((strat.oversold - v) / strat.oversold) * 100) 100 :=
        max_eq_right (le_min hx.le (by norm_num))
      simp [RSIStrategy.generateSignalVal, hv, hc]
    · intro hv1 hv2
      simp only [RSIStrategy.generateSignalVal]
      rw [if_neg (not_lt.2 hv1), if_neg (not_lt.2 hv2)]
    · intro hv1 hv2
      have hx : 0 < ((v - strat.overbought) / (100 - strat.overbought)) * 100 :=
        mul_pos (div_pos (sub_pos.2 hv2) (sub_pos.2 hob)) (by norm_num)
      have hc : clampQ (((v - strat.overbought) / (100 - strat.overbought)) * 100)
          = min (((v - strat.overbought) / (100 - strat.overbought)) * 100) 100 :=
        max_eq_right (le_min hx.le (by norm_num))
      simp only [RSIStrategy.generateSignalVal]
      rw [if_neg (not_lt.2 hv1), if_pos hv2, hc]
  · norm_num [RSIStrategy.generateSignalVal, RSIStrategy.default]
  · norm_num [RSIStrategy.generateSignalVal, RSIStrategy.default, hb]
  · norm_num [RSIStrategy.generateSignalVal, RSIStrategy.default]
  · norm_num [RSIStrategy.generateSignalVal, RSIStrategy.default, hs]
  · norm_num [RSIStrategy.generateSignalVal, RSIStrategy.default]

/-- C5 witness: the amended BUY rule applied at the default thresholds and
value 20. -/
theorem generateSignal_classify_rules_witness :
    RSIStrategy.default.generateSignalVal 20
      = { type := SignalType.buy,
          strength := clampQ (((30 - (20 : ℚ)) / 30) * 100), rsi := some 20 } := by
  have h := ((generateSignal_classify_rules.1 RSIStrategy.default 20
    (by norm_num [RSIStrategy.default]) (by norm_num [RSIStrategy.default])).1
    (by norm_num [RSIStrategy.default]))
  simpa [RSIStrategy.default] using h

/-- C9 counterexample: on a constant 15-point series with period 14 the
modelled indicator is 100 (the `avgLoss = 0` value), not the claimed 50. -/
theorem constant_series_rsi_not_fifty :
    calculateRSI 14 (List.replicate 15 (100 : ℚ)) = some 100 ∧
    calculateRSI 14 (List.replicate 15 (100 : ℚ)) ≠ some 50 := by
  have h := calculateRSI_replicate 14 15 100 (by norm_num)
  refine ⟨h, ?_⟩
  rw [h]
  intro hc
  exact absurd (Option.some.inj hc) (by norm_num)

/-- C9 (amended): for every period and constant price series of length at
least `period + 1`, the indicator past warm-up equals 100, as the
`avgLoss = 0` convention dictates — both for the modelled library
computation and through the strategy's guarded wrapper. -/
theorem constant_series_rsi_is_100 (strat : RSIStrategy) (period n : ℕ) (c : ℚ)
    (h : period + 1 ≤ n) (hn : strat.period + 1 ≤ n) :
    calculateRSI period (List.replicate n c) = some 100 ∧
    strat.calculateRSI (List.replicate n c) = some 100 := by
  refine ⟨calculateRSI_replicate period n c h, ?_⟩
  unfold RSIStrategy.calculateRSI
  rw [if_neg (by simp; omega)]
  exact calculateRSI_replicate strat.period n c hn

/-- C9 witness: the amendment at period 14 on a constant 15-point series. -/
theorem constant_series_rsi_is_100_witness :
    calculateRSI 14 (List.replicate 15 (50 : ℚ)) = some 100 ∧
    RSIStrategy.default.calculateRSI (List.replicate 15 (50 : ℚ)) = some 100 :=
  constant_series_rsi_is_100 RSIStrategy.default 14 15 50 (by norm_num)
    (by norm_num [RSIStrategy.default])

/-! ### Claims about the scanner -/

lemma length_filterMap_map_id {α β : Type _} (f : α → Option β) (l : List α)
    (h : ∀ x ∈ l, (f x).isSome) : ((l.map f).filterMap id).length = l.length := by
  induction l with
  | nil => rfl
  | cons a t ih =>
    rcases Option.isSome_iff_exists.1 (h a (by simp)) with ⟨b, hb⟩
    simp only [List.map_cons, List.filterMap_cons, id, hb, List.length_cons]
    rw [ih (fun x hx => h x (by simp [hx]))]

/-- C4: when exactly one stock symbol's history fetch throws and every other
asset scan yields a signal, `scanAll` completes with N−1 signals in `all`
(the failing asset is caught at `scanStock` and contributes no signal), and
the shortfall against the N scanned assets is exactly 1. -/
theorem scanAll_tolerates_single_fetch_failure
    (env : ScanEnv) (strat : RSIStrategy) (pre post : List String) (bad : String)
    (cs : List CryptoConfig)
    (hbad : env.alpacaHist bad = Except.error ())
    (hpre : ∀ s ∈ pre, (scanStock env strat s).isSome)
    (hpost : ∀ s ∈ post, (scanStock env strat s).isSome)
    (hcs : ∀ c ∈ cs, (scanCrypto env strat c).isSome) :
    (scanAll env strat (pre ++ bad :: post) cs).all.length
        = ((pre ++ bad :: post).length + cs.length) - 1 ∧
    ((pre ++ bad :: post).length + cs.length)
        - (scanAll env strat (pre ++ bad :: post) cs).all.length = 1 := by
  have hbadnone : scanStock env strat bad = none := by
    unfold scanStock
    rw [hbad]
  have hstock : (scanStocks env strat (pre ++ bad :: post)).length
      = pre.length + post.length := by
    unfold scanStocks
    rw [List.map_append, List.filterMap_append, List.map_cons]
    rw [List.filterMap_cons_none (by simpa using hbadnone)]
    rw [List.length_append, length_filterMap_map_id _ _ hpre,
      length_filterMap_map_id _ _ hpost]
  have hcrypto : (scanCryptos env strat cs).length = cs.length :=
    length_filterMap_map_id _ _ hcs
  have hall : (scanAll env strat (pre ++ bad :: post) cs).all
      = scanStocks env strat (pre ++ bad :: post) ++ scanCryptos env strat cs := rfl
  rw [hall, List.length_append, hstock, hcrypto]
  simp only [List.length_append, List.length_cons]
  omega

/-- C4 witness: universe `["A", "X", "B"]` with `X`'s fetch throwing in
`scanEnvEx` yields 2 of 3 signals, a shortfall of exactly 1. -/
theorem scanAll_tolerates_single_fetch_failure_witness :
    (scanAll scanEnvEx RSIStrategy.default (["A"] ++ "X" :: ["B"]) []).all.length
        = ((["A"] ++ "X" :: ["B"]).length + ([] : List CryptoConfig).length) - 1 ∧
    ((["A"] ++ "X" :: ["B"]).length + ([] : List CryptoConfig).length)
        - (scanAll scanEnvEx RSIStrategy.default (["A"] ++ "X" :: ["B"]) []).all.length
        = 1 := by
  refine scanAll_tolerates_single_fetch_failure scanEnvEx RSIStrategy.default
    ["A"] ["B"] "X" [] (by simp [scanEnvEx]) ?_ ?_ ?_
  · intro s hs
    simp only [List.mem_singleton] at hs
    subst hs
    simp [scanStock, scanEnvEx]
  · intro s hs
    simp only [List.mem_singleton] at hs
    subst hs
    simp [scanStock, scanEnvEx]
  · intro c hc
    simp at hc

/-! ### Claims about the orchestrator -/

/-- C2: a crypto candidate whose computed size (the 0.001 floor) is below
the venue's 0.01 minimum order size makes `executeBuyCrypto` return without
submitting any order — yet the candidate loop still counts a trade and
appends a provisional position: the outcome holds one recorded trade and
one provisional position against an empty order list. -/
theorem executeTrades_records_skipped_below_min :
    executeBuyCrypto execEnvBelowMin (rmAt 5000) oppBelowMin = Except.ok none ∧
    executeTrades execEnvBelowMin (rmAt 5000) [oppBelowMin] []
      = { positions :=
            [{ symbol := "Z", exchange := Exchange.kraken, profitLossPercent := 0 }],
          newTrades := 1,
          orders := [] } := by
  have hq : (rmAt 5000).calculateCryptoPositionSize execEnvBelowMin.krakenTotal
      oppBelowMin.currentPrice = 1 / 1000 := by
    unfold RiskManager.calculateCryptoPositionSize
    rw [max_eq_right (by norm_num [rmAt, RiskConfig.default, execEnvBelowMin, oppBelowMin])]
  have hbuy : executeBuyCrypto execEnvBelowMin (rmAt 5000) oppBelowMin = Except.ok none := by
    unfold executeBuyCrypto
    rw [hq, if_pos (by norm_num [execEnvBelowMin])]
  refine ⟨hbuy, ?_⟩
  unfold executeTrades
  simp only [List.take, List.foldl_cons, List.foldl_nil, executeTradesStep]
  rw [if_neg (by simp [RiskManager.canOpenPosition, rmAt, RiskConfig.default])]
  simp only [oppBelowMin] at hbuy
  simp [oppBelowMin, hbuy]

lemma runScanCycle_of_not_running (env : CycleEnv) (s : BotState)
    (h : s.status ≠ BotStatus.running) : runScanCycle env s = s := by
  unfold runScanCycle
  rw [if_pos h]

/-- C1: a scheduled tick whose bot is not Running changes nothing; a tick
never puts a bot into Running; a Running tick whose updated session hits a
halt condition (daily limits or the circuit breaker) leaves the bot
Stopped; and a Stopped bot absorbs every further sequence of scheduled
ticks unchanged (only `start()` leaves Stopped). -/
theorem scheduled_tick_guard :
    (∀ (env : CycleEnv) (s : BotState),
        s.status ≠ BotStatus.running → runScanCycle env s = s) ∧
    (∀ (env : CycleEnv) (s : BotState),
        (runScanCycle env s).status = BotStatus.running →
          s.status = BotStatus.running) ∧
    (∀ (env : CycleEnv) (s : BotState),
        s.status = BotStatus.running → env.fetchOk = true →
        ((s.riskManager.updateDailyPnL env.balance).shouldStopTrading = true ∨
          (s.riskManager.updateDailyPnL env.balance).checkCircuitBreaker env.balance
            = true) →
        (runScanCycle env s).status = BotStatus.stopped) ∧
    (∀ (s : BotState), s.status = BotStatus.stopped →
        ∀ (envs : List CycleEnv),
          envs.foldl (fun t e => runScanCycle e t) s = s) := by
  refine ⟨runScanCycle_of_not_running, ?_, ?_, ?_⟩
  · intro env s h
    by_cases hs : s.status = BotStatus.running
    · exact hs
    · rw [runScanCycle_of_not_running env s hs] at h
      exact absurd h hs
  · intro env s hs hf hhalt
    rcases hhalt with h | h
    · simp [runScanCycle, hs, hf, h, TradingBot.stop]
    · cases hstop : (s.riskManager.updateDailyPnL env.balance).shouldStopTrading with
      | true => simp [runScanCycle, hs, hf, hstop, TradingBot.stop]
      | false => simp [runScanCycle, hs, hf, hstop, h, TradingBot.stop]
  · intro s hs envs
    induction envs with
    | nil => rfl
    | cons e es ih =>
      rw [List.foldl_cons, runScanCycle_of_not_running e s (by simp [hs])]
      exact ih

/-- C1 witness: a stopped bot is untouched by one tick and by a sequence of
two ticks, and a running bot past its daily loss limit ends a tick
Stopped. -/
theorem scheduled_tick_guard_witness :
    runScanCycle cycleEnvEx stoppedBot = stoppedBot ∧
    [cycleEnvEx, cycleEnvEx].foldl (fun t e => runScanCycle e t) stoppedBot
      = stoppedBot ∧
    (runScanCycle cycleEnvEx runningLossBot).status = BotStatus.stopped := by
  refine ⟨?_, ?_, ?_⟩
  · exact scheduled_tick_guard.1 cycleEnvEx stoppedBot (by simp [stoppedBot])
  · exact scheduled_tick_guard.2.2.2 stoppedBot (by simp [stoppedBot])
      [cycleEnvEx, cycleEnvEx]
  · refine scheduled_tick_guard.2.2.1 cycleEnvEx runningLossBot
      (by simp [runningLossBot, stoppedBot]) rfl (Or.inl ?_)
    norm_num [runningLossBot, stoppedBot, cycleEnvEx, RiskManager.updateDailyPnL,
      RiskManager.shouldStopTrading, RiskManager.hasHitDailyProfitLimit,
      RiskManager.hasHitDailyLossLimit, rmAt, RiskConfig.default]

/-- C3 counterexample: with the stock venue's connectivity check failing,
`start()` called on a Paused bot returns false but leaves the bot Paused —
not Stopped as the claim states for every starting state. -/
theorem start_failure_from_paused_stays_paused :
    (TradingBot.start startEnvFail [] [] pausedBot).1.status = BotStatus.paused ∧
    (TradingBot.start startEnvFail [] [] pausedBot).1.status ≠ BotStatus.stopped ∧
    (TradingBot.start startEnvFail [] [] pausedBot).2 = false := by
  refine ⟨?_, ?_, ?_⟩ <;>
    simp [TradingBot.start, startEnvFail, pausedBot, stoppedBot]

/-- C3 (amended): `start()` moves a non-Running bot to Running only when
both venue connectivity checks pass; when either check fails it returns
false and leaves the whole state unchanged (a Stopped bot stays Stopped, a
Paused bot stays Paused); and a true return implies the bot was not already
Running and both checks passed. -/
theorem start_connectivity_gate (env : StartEnv) (syms : List String)
    (cs : List CryptoConfig) (s : BotState) :
    (¬ (env.alpacaOk = true ∧ env.krakenOk = true) →
        TradingBot.start env syms cs s = (s, false)) ∧
    (s.status ≠ BotStatus.running →
        (TradingBot.start env syms cs s).1.status = BotStatus.running →
        env.alpacaOk = true ∧ env.krakenOk = true) ∧
    ((TradingBot.start env syms cs s).2 = true →
        s.status ≠ BotStatus.running ∧ env.alpacaOk = true ∧ env.krakenOk = true) := by
  have hfail : ¬ (env.alpacaOk = true ∧ env.krakenOk = true) →
      TradingBot.start env syms cs s = (s, false) := by
    intro h
    unfold TradingBot.start
    by_cases hs : s.status = BotStatus.running
    · rw [if_pos hs]
    · rw [if_neg hs, if_pos h]
  refine ⟨hfail, ?_, ?_⟩
  · intro hs hrun
    by_cases h : env.alpacaOk = true ∧ env.krakenOk = true
    · exact h
    · rw [hfail h] at hrun
      exact absurd hrun hs
  · intro htrue
    by_cases hs : s.status = BotStatus.running
    · unfold TradingBot.start at htrue
      rw [if_pos hs] at htrue
      exact absurd htrue (by simp)
    · by_cases h : env.alpacaOk = true ∧ env.krakenOk = true
      · exact ⟨hs, h⟩
      · rw [hfail h] at htrue
        exact absurd htrue (by simp)

/-- C3 witness: the amended failure rule applied to the Paused bot and the
failing connectivity environment. -/
theorem start_connectivity_gate_witness :
    TradingBot.start startEnvFail [] [] pausedBot = (pausedBot, false) :=
  (start_connectivity_gate startEnvFail [] [] pausedBot).1 (by simp [startEnvFail])

end Site01
